import Mathlib

/-!
Shallow embedding of the fbi-crime-stats-mcp tool server
(src/src/tools/ucr_forecast.py, ucr_history.py, ucr_compare.py, ucr_info.py).

Python strings are modelled as Lean `String` (a list of characters); the
ASCII fragment of `str.lower`, `str.upper`, `str.strip`, `str.title` and
`str.replace` is embedded explicitly.  Python numbers are modelled as `ℚ`,
with the single `float("inf")` value of `calculate_percent_change` modelled
by the two-constructor type `PyFloat`.  JSON dictionaries coming from the
upstream APIs are modelled as structures whose fields are `Option`-valued:
`none` models an absent key, mirroring every `dict.get` in the source.
HTTP calls are modelled by passing the outcome of each outbound request as
an explicit argument (an oracle), so each tool entry point becomes a pure
function of its parameters and of the network outcomes.
-/

namespace Py

/-- ASCII lower-casing of a single character, the fragment of Python
`str.lower` exercised by the normalizers. -/
def lowerChar (c : Char) : Char :=
  if 65 ≤ c.toNat ∧ c.toNat ≤ 90 then Char.ofNat (c.toNat + 32) else c

/-- ASCII upper-casing of a single character, the fragment of Python
`str.upper` exercised by the normalizers. -/
def upperChar (c : Char) : Char :=
  if 97 ≤ c.toNat ∧ c.toNat ≤ 122 then Char.ofNat (c.toNat - 32) else c

/-- Python whitespace characters stripped by `str.strip()`. -/
def isPySpace (c : Char) : Bool :=
  c = ' ' || c = '\t' || c = '\n' || c = '\r' || c.toNat = 11 || c.toNat = 12

/-- Remove leading and trailing whitespace from a character list
(Python `str.strip()`). -/
def stripChars (l : List Char) : List Char :=
  (((l.dropWhile isPySpace).reverse.dropWhile isPySpace)).reverse

/-- Python `s.lower().strip()`. -/
def lowerStrip (s : String) : String :=
  ⟨stripChars (s.data.map lowerChar)⟩

/-- Python `s.upper().strip()`. -/
def upperStrip (s : String) : String :=
  ⟨stripChars (s.data.map upperChar)⟩

/-- Python `s.replace(a, b)` for single characters `a`, `b`. -/
def replaceChar (a b : Char) (s : String) : String :=
  ⟨s.data.map (fun c => if c = a then b else c)⟩

/-- Is the character an ASCII letter. -/
def isAsciiAlpha (c : Char) : Bool :=
  (65 ≤ c.toNat && c.toNat ≤ 90) || (97 ≤ c.toNat && c.toNat ≤ 122)

/-- Helper for `title`: the Boolean records whether the previous character
was a letter. -/
def titleAux : Bool → List Char → List Char
  | _, [] => []
  | prevAlpha, c :: rest =>
    (if isAsciiAlpha c then (if prevAlpha then lowerChar c else upperChar c) else c)
      :: titleAux (isAsciiAlpha c) rest

/-- Python `str.title()` (ASCII fragment): upper-case each letter that does
not follow a letter, lower-case the other letters. -/
def title (s : String) : String :=
  ⟨titleAux false s.data⟩

/-- Substring replacement on character lists, with explicit fuel (the fuel
is always instantiated with the length of the list, so the function equals
Python `str.replace` for a non-empty pattern). -/
def replaceAux (pat repl : List Char) : Nat → List Char → List Char
  | 0, l => l
  | _ + 1, [] => []
  | fuel + 1, c :: rest =>
    if pat ≠ [] ∧ pat.isPrefixOf (c :: rest) then
      repl ++ replaceAux pat repl fuel ((c :: rest).drop pat.length)
    else
      c :: replaceAux pat repl fuel rest

/-- Python `s.replace(pat, repl)` for string patterns. -/
def replaceSub (pat repl s : String) : String :=
  ⟨replaceAux pat.data repl.data s.data.length s.data⟩

/-- Association-list lookup, modelling Python `dict` lookup on the static
literal alias tables. -/
def lookupTab : List (String × String) → String → Option String
  | [], _ => none
  | (k, v) :: rest, c => if c = k then some v else lookupTab rest c

/-- Association-list lookup with a default, modelling `dict.get(k, d)`. -/
def lookupD (l : List (String × String)) (c : String) (d : String) : String :=
  (lookupTab l c).getD d

/-- Round-half-even to an integer, the rounding used by Python `round` and
by the `f`, `.0f` and `.1f` format specifiers. -/
def roundHalfEven (q : ℚ) : ℤ :=
  let f : ℤ := ⌊q⌋
  let r : ℚ := q - f
  if r < 1 / 2 then f
  else if 1 / 2 < r then f + 1
  else if f % 2 = 0 then f else f + 1

/-- Insert thousands separators into a reversed digit list. -/
def commaAuxRev : Nat → List Char → List Char
  | _, [] => []
  | n, c :: rest =>
    if n = 3 then ',' :: c :: commaAuxRev 1 rest
    else c :: commaAuxRev (n + 1) rest

/-- Python `f"{n:,}"` for an integer `n`: decimal digits grouped by 3. -/
def intComma (n : ℤ) : String :=
  (if n < 0 then "-" else "") ++ ⟨(commaAuxRev 0 (toString n.natAbs).data.reverse).reverse⟩

/-- Magnitude part of a one-decimal rendering: round `|q| * 10` half-even
and print with one digit after the point. -/
def fmt1fMag (q : ℚ) : String :=
  let n : ℕ := (roundHalfEven (|q| * 10)).natAbs
  toString (n / 10) ++ "." ++ toString (n % 10)

/-- Python `f"{q:.1f}"`. -/
def fmt1f (q : ℚ) : String :=
  (if q < 0 then "-" else "") ++ fmt1fMag q

/-- Python `f"{q:+.1f}"`. -/
def fmtSigned1f (q : ℚ) : String :=
  (if q < 0 then "-" else "+") ++ fmt1fMag q

/-- Python `f"{q:,.0f}"`: round half-even to an integer, thousands
separators, the sign taken from the value itself. -/
def fmtComma0f (q : ℚ) : String :=
  (if q < 0 then "-" else "") ++ ⟨(commaAuxRev 0 (toString (roundHalfEven |q|).natAbs).data.reverse).reverse⟩

/-- Python `f"{s:>{w}}"`: right-justify with spaces. -/
def rjust (w : Nat) (s : String) : String :=
  ⟨List.replicate (w - s.data.length) ' ' ++ s.data⟩

/-- Largest element of a list of naturals (0 on the empty list); Python
`max(...)` over a non-empty generator. -/
def maxOf (l : List Nat) : Nat := l.foldr max 0

theorem lookupTab_mem {l : List (String × String)} {c v : String}
    (h : lookupTab l c = some v) : (c, v) ∈ l := by
  induction l with
  | nil => simp [lookupTab] at h
  | cons kv rest ih =>
    obtain ⟨k, w⟩ := kv
    by_cases hc : c = k
    · subst hc
      simp [lookupTab] at h
      simp [h]
    · simp [lookupTab, hc] at h
      exact List.mem_cons_of_mem _ (ih h)

end Py

namespace Forecast

/-- Closed offense set of src/src/tools/ucr_forecast.py (VALID_OFFENSES). -/
def VALID_OFFENSES : List String :=
  ["violent-crime", "property-crime", "homicide", "burglary", "motor-vehicle-theft"]

/-- Supported states of ucr_forecast.py (VALID_STATES). -/
def VALID_STATES : List String := ["CA", "TX", "FL", "NY", "IL"]

/-- State display names of ucr_forecast.py (STATE_NAMES). -/
def STATE_NAMES : List (String × String) :=
  [("CA", "California"), ("TX", "Texas"), ("FL", "Florida"),
   ("NY", "New York"), ("IL", "Illinois")]

/-- Alias table of ucr_forecast.py (OFFENSE_ALIASES). -/
def OFFENSE_ALIASES : List (String × String) :=
  [("violent_crime", "violent-crime"),
   ("violentcrime", "violent-crime"),
   ("violent", "violent-crime"),
   ("property_crime", "property-crime"),
   ("propertycrime", "property-crime"),
   ("property", "property-crime"),
   ("murder", "homicide"),
   ("homicides", "homicide"),
   ("burglaries", "burglary"),
   ("break-in", "burglary"),
   ("breaking-and-entering", "burglary"),
   ("motor_vehicle_theft", "motor-vehicle-theft"),
   ("motorvehicletheft", "motor-vehicle-theft"),
   ("vehicle-theft", "motor-vehicle-theft"),
   ("car-theft", "motor-vehicle-theft"),
   ("auto-theft", "motor-vehicle-theft"),
   ("mvt", "motor-vehicle-theft")]

/-- The two membership checks of ucr_forecast.py normalize_offense, applied
to the cleaned input. -/
def offense_lookup (cleaned : String) : Option String :=
  if cleaned ∈ VALID_OFFENSES then some cleaned
  else Py.lookupTab OFFENSE_ALIASES cleaned

/-- ucr_forecast.py normalize_offense; `none` models the raised ToolError. -/
def normalize_offense (offense : String) : Option String :=
  offense_lookup (Py.lowerStrip offense)

/-- ucr_forecast.py normalize_state; outer `none` models the raised
ToolError, `some none` models returning None unmodified. -/
def normalize_state (state : Option String) : Option (Option String) :=
  match state with
  | none => some none
  | some s =>
    let cleaned := Py.upperStrip s
    if cleaned ∈ VALID_STATES then some (some cleaned) else none

/-- Month abbreviations produced by strftime %b. -/
def MONTH_ABBR : List String :=
  ["Jan", "Feb", "Mar", "Apr", "May", "Jun",
   "Jul", "Aug", "Sep", "Oct", "Nov", "Dec"]

/-- Is the character an ASCII digit. -/
def isDigit (c : Char) : Bool := 48 ≤ c.toNat && c.toNat ≤ 57

/-- Numeric value of a digit list (most significant first). -/
def digitsVal (l : List Char) : Nat :=
  l.foldl (fun acc c => acc * 10 + (c.toNat - 48)) 0

/-- Parse a YYYY-MM character sequence; `none` models the ValueError branch
of strptime. -/
def parseYM : List Char → Option (Nat × Nat)
  | [y1, y2, y3, y4, '-', m1, m2] =>
    if isDigit y1 && isDigit y2 && isDigit y3 && isDigit y4
        && isDigit m1 && isDigit m2 then
      let m := digitsVal [m1, m2]
      if 1 ≤ m ∧ m ≤ 12 then some (digitsVal [y1, y2, y3, y4], m) else none
    else none
  | _ => none

/-- Parse a YYYY-MM-DD character sequence (the first ten characters of the
input), validating the day as strptime does. -/
def parseYMD : List Char → Option (Nat × Nat)
  | y1 :: y2 :: y3 :: y4 :: '-' :: m1 :: m2 :: '-' :: d1 :: d2 :: _ =>
    if isDigit y1 && isDigit y2 && isDigit y3 && isDigit y4
        && isDigit m1 && isDigit m2 && isDigit d1 && isDigit d2 then
      let m := digitsVal [m1, m2]
      let d := digitsVal [d1, d2]
      if 1 ≤ m ∧ m ≤ 12 ∧ 1 ≤ d ∧ d ≤ 31 then some (digitsVal [y1, y2, y3, y4], m)
      else none
    else none
  | _ => none

/-- ucr_forecast.py format_month: YYYY-MM or YYYY-MM-DD rendered as
"Mon YYYY", the original string on a parse failure. -/
def format_month (date_str : String) : String :=
  let parsed :=
    if date_str.data.length = 7 then parseYM date_str.data
    else parseYMD date_str.data
  match parsed with
  | some (y, m) => (MONTH_ABBR.getD (m - 1) "") ++ " " ++ toString y
  | none => date_str

/-- A prediction point as consumed by ucr_forecast.py: each field models
the corresponding optional JSON key. -/
structure Pred where
  date : Option String := none
  month : Option String := none
  predicted : Option ℚ := none
  lower : Option ℚ := none
  lower_bound : Option ℚ := none
  upper : Option ℚ := none
  upper_bound : Option ℚ := none
  deriving DecidableEq

/-- ucr_forecast.py determine_trend. -/
def determine_trend (predictions : List Pred) : String × ℚ :=
  match predictions with
  | [] => ("Stable", 0)
  | [_] => ("Stable", 0)
  | p :: ps =>
    let first_value := p.predicted.getD 0
    let last_value := (((p :: ps).getLast?).getD p).predicted.getD 0
    if first_value = 0 then ("Stable", 0)
    else
      let percent_change := ((last_value - first_value) / first_value) * 100
      if percent_change > 5 then ("Increasing", percent_change)
      else if percent_change < -5 then ("Decreasing", percent_change)
      else ("Stable", percent_change)

/-- ucr_forecast.py format_number. -/
def format_number (value : ℚ) : String :=
  Py.intComma (Py.roundHalfEven value)

/-- Model metadata dictionary as consumed by format_summary. -/
structure ModelInfo where
  model_type : Option String := none
  model : Option String := none
  mape : Option ℚ := none
  error_rate : Option ℚ := none
  accuracy : Option ℚ := none
  training_end : Option String := none
  data_through : Option String := none
  deriving DecidableEq

/-- A history entry as consumed by format_summary. -/
structure HistEntry where
  date : Option String := none
  month : Option String := none
  actual : Option ℚ := none
  incidents : Option ℚ := none
  value : Option ℚ := none
  deriving DecidableEq

/-- One line of the Recent History block of format_summary. -/
def history_line (entry : HistEntry) : String :=
  let month := format_month ((entry.date).getD ((entry.month).getD ""))
  let incidents := format_number ((entry.actual).getD ((entry.incidents).getD ((entry.value).getD 0)))
  "- " ++ month ++ ": " ++ incidents

/-- One line of the Predicted Incidents block of format_summary. -/
def prediction_line (pred : Pred) : String :=
  let month := format_month ((pred.date).getD ((pred.month).getD ""))
  let predicted := format_number ((pred.predicted).getD 0)
  let lower := format_number ((pred.lower).getD ((pred.lower_bound).getD 0))
  let upper := format_number ((pred.upper).getD ((pred.upper_bound).getD 0))
  "- " ++ month ++ ": ~" ++ predicted ++ " (range: " ++ lower ++ " - " ++ upper ++ ")"

/-- The lines assembled by ucr_forecast.py format_summary; the function
itself returns their newline join. -/
def format_summary_lines (offense : String) (months_ahead : ℤ)
    (predictions : List Pred) (model_info : ModelInfo)
    (history : Option (List HistEntry)) (state : Option String) : List String :=
  let offense_display := Py.title (Py.replaceChar '-' ' ' offense)
  let header :=
    match state with
    | some st =>
      offense_display ++ " Forecast (" ++ Py.lookupD STATE_NAMES st st
        ++ ", next " ++ toString months_ahead ++ " months):"
    | none =>
      offense_display ++ " Forecast (National, next " ++ toString months_ahead ++ " months):"
  let history_block :=
    match history with
    | some entries =>
      if entries ≠ [] then
        ("Recent History:" :: (entries.drop (entries.length - 3)).map history_line) ++ [""]
      else []
    | none => []
  let trend_pc := determine_trend predictions
  let trend_line := "Trend: " ++ trend_pc.1 ++ " (" ++ Py.fmtSigned1f trend_pc.2 ++ "%)"
  let model_type := (model_info.model_type).getD ((model_info.model).getD "Unknown")
  let mape := (model_info.mape).getD ((model_info.error_rate).getD 0)
  let accuracy := if mape ≠ 0 then 100 - mape else (model_info.accuracy).getD 0
  let training_end := format_month ((model_info.training_end).getD ((model_info.data_through).getD ""))
  let model_line :=
    "Model: " ++ model_type ++ " | Accuracy: " ++ Py.fmt1f accuracy
      ++ "% | Data through: " ++ training_end
  [header, ""] ++ history_block
    ++ ["Predicted Incidents:"] ++ predictions.map prediction_line
    ++ [""] ++ [trend_line] ++ [model_line]

/-- ucr_forecast.py format_summary. -/
def format_summary (offense : String) (months_ahead : ℤ)
    (predictions : List Pred) (model_info : ModelInfo)
    (history : Option (List HistEntry)) (state : Option String) : String :=
  String.intercalate "\n" (format_summary_lines offense months_ahead predictions model_info history state)


end Forecast

namespace History

/-- Closed offense set of src/src/tools/ucr_history.py (VALID_OFFENSES). -/
def VALID_OFFENSES : List String :=
  ["violent-crime", "property-crime", "homicide", "burglary", "motor-vehicle-theft"]

/-- Supported states of ucr_history.py (VALID_STATES). -/
def VALID_STATES : List String := ["CA", "TX", "FL", "NY", "IL"]

/-- Alias table of ucr_history.py (OFFENSE_ALIASES). -/
def OFFENSE_ALIASES : List (String × String) :=
  [("violent_crime", "violent-crime"),
   ("violentcrime", "violent-crime"),
   ("violent", "violent-crime"),
   ("property_crime", "property-crime"),
   ("propertycrime", "property-crime"),
   ("property", "property-crime"),
   ("murder", "homicide"),
   ("homicides", "homicide"),
   ("burglaries", "burglary"),
   ("break-in", "burglary"),
   ("motor_vehicle_theft", "motor-vehicle-theft"),
   ("motorvehicletheft", "motor-vehicle-theft"),
   ("vehicle-theft", "motor-vehicle-theft"),
   ("car-theft", "motor-vehicle-theft"),
   ("auto-theft", "motor-vehicle-theft"),
   ("mvt", "motor-vehicle-theft")]

/-- The two membership checks of ucr_history.py normalize_offense, applied
to the cleaned input. -/
def offense_lookup (cleaned : String) : Option String :=
  if cleaned ∈ VALID_OFFENSES then some cleaned
  else Py.lookupTab OFFENSE_ALIASES cleaned

/-- ucr_history.py normalize_offense; `none` models the raised ToolError. -/
def normalize_offense (offense : String) : Option String :=
  offense_lookup (Py.lowerStrip offense)

/-- ucr_history.py normalize_state; outer `none` models the raised
ToolError, `some none` models returning None unmodified. -/
def normalize_state (state : Option String) : Option (Option String) :=
  match state with
  | none => some none
  | some s =>
    let cleaned := Py.upperStrip s
    if cleaned ∈ VALID_STATES then some (some cleaned) else none

/-- A monthly data point as consumed by ucr_history.py calculate_trend and
calculate_yearly_totals. -/
structure HPoint where
  date : Option String := none
  actual : Option ℚ := none
  rate : Option ℚ := none
  deriving DecidableEq

/-- ucr_history.py calculate_trend. -/
def calculate_trend (data : List HPoint) : String × ℚ :=
  match data with
  | [] => ("Stable", 0)
  | [_] => ("Stable", 0)
  | p :: ps =>
    let first_value := p.actual.getD 0
    let last_value := (((p :: ps).getLast?).getD p).actual.getD 0
    if first_value = 0 then ("Stable", 0)
    else
      let percent_change := ((last_value - first_value) / first_value) * 100
      if percent_change > 5 then ("Increasing", percent_change)
      else if percent_change < -5 then ("Decreasing", percent_change)
      else ("Stable", percent_change)

end History

namespace Compare

/-- Closed offense set of src/src/tools/ucr_compare.py (VALID_OFFENSES). -/
def VALID_OFFENSES : List String :=
  ["violent-crime", "property-crime", "homicide", "burglary", "motor-vehicle-theft"]

/-- Supported states of ucr_compare.py (VALID_STATES). -/
def VALID_STATES : List String := ["CA", "TX", "FL", "NY", "IL"]

/-- State display names of ucr_compare.py (STATE_NAMES). -/
def STATE_NAMES : List (String × String) :=
  [("CA", "California"), ("TX", "Texas"), ("FL", "Florida"),
   ("NY", "New York"), ("IL", "Illinois")]

/-- Alias table of ucr_compare.py (OFFENSE_ALIASES). -/
def OFFENSE_ALIASES : List (String × String) :=
  [("violent", "violent-crime"),
   ("violent crime", "violent-crime"),
   ("violent_crime", "violent-crime"),
   ("property", "property-crime"),
   ("property crime", "property-crime"),
   ("property_crime", "property-crime"),
   ("murder", "homicide"),
   ("mvt", "motor-vehicle-theft"),
   ("vehicle theft", "motor-vehicle-theft"),
   ("vehicle-theft", "motor-vehicle-theft"),
   ("car theft", "motor-vehicle-theft"),
   ("motor vehicle theft", "motor-vehicle-theft"),
   ("motor_vehicle_theft", "motor-vehicle-theft")]

/-- The two membership checks of ucr_compare.py normalize_offense, applied
to the cleaned input. -/
def offense_lookup (normalized : String) : Option String :=
  if normalized ∈ VALID_OFFENSES then some normalized
  else Py.lookupTab OFFENSE_ALIASES normalized

/-- ucr_compare.py normalize_offense; `none` models the raised ValueError. -/
def normalize_offense (offense : String) : Option String :=
  offense_lookup (Py.lowerStrip offense)

/-- ucr_compare.py normalize_state; outer `none` models the raised
ValueError, `some none` models returning None unmodified. -/
def normalize_state (state : Option String) : Option (Option String) :=
  match state with
  | none => some none
  | some s =>
    let cleaned := Py.upperStrip s
    if cleaned ∈ VALID_STATES then some (some cleaned) else none

/-- ucr_compare.py format_offense_name. -/
def format_offense_name (offense : String) : String :=
  Py.title (Py.replaceChar '-' ' ' offense)

/-- A Python float that is either finite or the positive infinity produced
by calculate_percent_change. -/
inductive PyFloat
  | finite (q : ℚ)
  | posInf
  deriving DecidableEq

/-- ucr_compare.py calculate_percent_change. -/
def calculate_percent_change (current forecast : ℚ) : PyFloat :=
  if current = 0 then
    if forecast = 0 then .finite 0 else .posInf
  else .finite (((forecast - current) / current) * 100)

/-- Python `pct >= 0` on the PyFloat result. -/
def PyFloat.ge0 : PyFloat → Bool
  | .finite q => decide (0 ≤ q)
  | .posInf => true

/-- Python `pct > 0` on the PyFloat result. -/
def PyFloat.gt0 : PyFloat → Bool
  | .finite q => decide (0 < q)
  | .posInf => true

/-- Python `abs(pct) > 10` on the PyFloat result. -/
def PyFloat.absGt10 : PyFloat → Bool
  | .finite q => decide (10 < |q|)
  | .posInf => true

/-- Python `f"{pct:.1f}"` on the PyFloat result (floats render `inf`). -/
def PyFloat.fmt1f : PyFloat → String
  | .finite q => Py.fmt1f q
  | .posInf => "inf"

/-- A prediction point as consumed by ucr_compare.py. -/
structure PredPoint where
  predicted : Option ℚ := none
  deriving DecidableEq

/-- Prediction metadata as consumed by ucr_compare.py. -/
structure Metadata where
  model_type : Option String := none
  training_end : Option String := none
  deriving DecidableEq

/-- The prediction JSON payload as consumed by ucr_compare.py. -/
structure PredJson where
  predictions : Option (List PredPoint) := none
  metadata : Option Metadata := none
  deriving DecidableEq

/-- A history point as consumed by ucr_compare.py. -/
structure HistPoint where
  actual : Option ℚ := none
  count : Option ℚ := none
  deriving DecidableEq

/-- The history JSON payload as consumed by ucr_compare.py. -/
structure HistJson where
  data : Option (List HistPoint) := none
  deriving DecidableEq

/-- One entry of the results list: (offense, prediction, history, error),
the return shape of fetch_offense_data. -/
def ResultRow : Type := String × Option PredJson × Option HistJson × Option String

instance : DecidableEq ResultRow := by
  unfold ResultRow
  infer_instance

/-- The outcome of the concurrent prediction+history fetch for one offense,
the network oracle for fetch_offense_data. -/
inductive FetchOutcome
  | success (prediction : PredJson) (history : HistJson)
  | httpStatusError (code : ℤ)
  | timeoutExc
  | requestError (detail : String)
  deriving DecidableEq

/-- Did the paired fetch fail with one of the three caught exceptions. -/
def FetchOutcome.isErr : FetchOutcome → Bool
  | .success _ _ => false
  | _ => true

/-- ucr_compare.py fetch_offense_data: converts any of the three caught
exception kinds into an error tuple rather than propagating. -/
def fetch_offense_data (offense : String) (outcome : FetchOutcome) : ResultRow :=
  match outcome with
  | .success prediction history => (offense, some prediction, some history, none)
  | .httpStatusError code => (offense, none, none, some ("API error: " ++ toString code))
  | .timeoutExc => (offense, none, none, some "Request timed out")
  | .requestError detail => (offense, none, none, some ("Connection error: " ++ detail))

/-- Current value extracted from the history payload in
format_comparison_output (defaults to 0 when the payload is missing, has
no "data" list or an empty one). -/
def extract_current (history : Option HistJson) : ℚ :=
  match history with
  | some hj =>
    match hj.data with
    | some (p :: rest) =>
      let last := ((p :: rest).getLast?).getD p
      (last.actual).getD ((last.count).getD 0)
    | _ => 0
  | none => 0

/-- Forecast value extracted from the prediction payload in
format_comparison_output (last prediction of the series, defaulting to 0
when the payload is missing, has no "predictions" list or an empty one). -/
def extract_forecast (prediction : Option PredJson) : ℚ :=
  match prediction with
  | some pj =>
    match pj.predictions with
    | some (p :: rest) => ((((p :: rest).getLast?).getD p).predicted).getD 0
    | _ => 0
  | none => 0


/-- The table row emitted for one result in format_comparison_output
(`none` for a result carrying an error, which is skipped via continue). -/
def row_entry (offense_width : Nat) (metric : String) : ResultRow → Option String
  | (offense, prediction, history, error) =>
    if error.isSome then none
    else
      let offense_display := format_offense_name offense
      let current_value := extract_current history
      let forecast_value := extract_forecast prediction
      let pct_change := calculate_percent_change current_value forecast_value
      if metric = "percent_change" then
        let base := if pct_change.ge0 then "+" ++ pct_change.fmt1f ++ "%"
                    else pct_change.fmt1f ++ "%"
        let change_str := if pct_change.absGt10 then base ++ " ⚠️" else base
        some (Py.rjust offense_width offense_display ++ "  "
          ++ Py.rjust 12 (Py.fmtComma0f current_value) ++ "  "
          ++ Py.rjust 18 (Py.fmtComma0f forecast_value) ++ "  "
          ++ Py.rjust 10 change_str)
      else
        some (Py.rjust offense_width offense_display ++ "  "
          ++ Py.rjust 12 (Py.fmtComma0f current_value) ++ "  "
          ++ Py.rjust 18 (Py.fmtComma0f forecast_value))

/-- The warning recorded for one result in format_comparison_output when
the percent change is significant (abs > 10) in percent_change mode. -/
def warn_entry (metric : String) : ResultRow → Option String
  | (offense, prediction, history, error) =>
    if error.isSome then none
    else if metric = "percent_change" then
      let pct_change := calculate_percent_change (extract_current history) (extract_forecast prediction)
      if pct_change.absGt10 then
        some (format_offense_name offense ++ " shows significant projected "
          ++ (if pct_change.gt0 then "increase" else "decrease") ++ ".")
      else none
    else none

/-- The error string recorded for one result in format_comparison_output. -/
def err_entry : ResultRow → Option String
  | (offense, _, _, error) =>
    error.map (fun msg => format_offense_name offense ++ ": " ++ msg)

/-- Python dict assignment `d[k] = v` on an insertion-ordered
association list. -/
def dictUpdate : List (String × String) → String → String → List (String × String)
  | [], k, v => [(k, v)]
  | (k', v') :: rest, k, v =>
    if k' = k then (k, v) :: rest else (k', v') :: dictUpdate rest k v

/-- Python `set.add` on a duplicate-free list. -/
def setAdd (l : List String) (x : String) : List String :=
  if x ∈ l then l else l ++ [x]

/-- The models_info dict and training_ends set accumulated by the row loop
of format_comparison_output. -/
def collect_models (acc : List (String × String)) (ends : List String) :
    List ResultRow → List (String × String) × List String
  | [] => (acc, ends)
  | (offense, prediction, _, error) :: rest =>
    if error.isSome then collect_models acc ends rest
    else
      match prediction with
      | some p =>
        match p.metadata with
        | some metadata =>
          let acc' := dictUpdate acc offense ((metadata.model_type).getD "Unknown")
          let ends' := match metadata.training_end with
            | some t => setAdd ends t
            | none => ends
          collect_models acc' ends' rest
        | none => collect_models acc ends rest
      | none => collect_models acc ends rest

/-- Short offense name used in the footer:
`offense.replace("-crime", "").replace("-", " ")`. -/
def short_name (offense : String) : String :=
  Py.replaceSub "-" " " (Py.replaceSub "-crime" "" offense)

/-- Append one (offense, model) pair into the model -> offenses grouping. -/
def group_insert (grouped : List (String × List String)) (model : String)
    (shortName : String) : List (String × List String) :=
  match grouped with
  | [] => [(model, [shortName])]
  | (m, offs) :: rest =>
    if m = model then (m, offs ++ [shortName]) :: rest
    else (m, offs) :: group_insert rest model shortName

/-- The model_to_offenses grouping loop of format_comparison_output. -/
def group_models_loop (grouped : List (String × List String)) :
    List (String × String) → List (String × List String)
  | [] => grouped
  | (offense, model) :: rest =>
    group_models_loop (group_insert grouped model (short_name offense)) rest

/-- The offense column width of format_comparison_output: the widest
display name, at least 22. -/
def table_width (results : List ResultRow) : Nat :=
  max (Py.maxOf (results.map (fun r => (format_offense_name r.1).data.length))) 22

/-- The lines assembled by ucr_compare.py format_comparison_output; the
function itself returns their newline join. -/
def format_comparison_output_lines (results : List ResultRow)
    (months_ahead : ℤ) (metric : String) (state : Option String) : List String :=
  let header_lines :=
    match state with
    | some st =>
      ["Crime Trend Comparison - " ++ Py.lookupD STATE_NAMES st st
        ++ " (" ++ toString months_ahead ++ "-month forecast):", ""]
    | none =>
      ["Crime Trend Comparison - National (" ++ toString months_ahead ++ "-month forecast):", ""]
  let offense_width := table_width results
  let header_row :=
    if metric = "percent_change" then
      Py.rjust offense_width "" ++ "  " ++ Py.rjust 12 "Current" ++ "  "
        ++ Py.rjust 18 (toString months_ahead ++ "-Month Forecast") ++ "  "
        ++ Py.rjust 10 "Change"
    else
      Py.rjust offense_width "" ++ "  " ++ Py.rjust 12 "Current" ++ "  "
        ++ Py.rjust 18 (toString months_ahead ++ "-Month Forecast")
  let rows := results.filterMap (row_entry offense_width metric)
  let warnings := results.filterMap (warn_entry metric)
  let errors := results.filterMap err_entry
  let models_ends := collect_models [] [] results
  let models_info := models_ends.1
  let training_ends := models_ends.2
  let footer :=
    let grouped := group_models_loop [] models_info
    let model_parts := grouped.map
      (fun g => g.1 ++ " (" ++ String.intercalate ", " g.2 ++ ")")
    let training_end := match training_ends with
      | [t] => t
      | _ => "varies"
    "Models: " ++ String.intercalate ", " model_parts ++ " | Data through: " ++ training_end
  header_lines ++ [header_row] ++ rows ++ [""]
    ++ warnings.map (fun w => "⚠️ " ++ w)
    ++ (if warnings = [] then [] else [""])
    ++ errors.map (fun e => "Error: " ++ e)
    ++ (if errors = [] then [] else [""])
    ++ (if models_info = [] then [] else [footer])

/-- ucr_compare.py format_comparison_output. -/
def format_comparison_output (results : List ResultRow)
    (months_ahead : ℤ) (metric : String) (state : Option String) : String :=
  String.intercalate "\n" (format_comparison_output_lines results months_ahead metric state)

/-- The distinct ToolError failures ucr_compare can raise; the
invalidOffenseList constructor carries the aggregated per-entry
suggestion lines. -/
inductive ToolErr
  | tooFewOffenses (provided : Nat)
  | tooManyOffenses (provided : Nat)
  | invalidState (state : String)
  | invalidOffenseList (suggestions : List String)
  | serviceUnavailable
  deriving DecidableEq

/-- The metric parameter, a Literal["absolute", "percent_change"]. -/
inductive Metric
  | absolute
  | percent_change
  deriving DecidableEq

/-- The string value of the metric parameter. -/
def Metric.toStr : Metric → String
  | .absolute => "absolute"
  | .percent_change => "percent_change"

/-- The normalization loop of ucr_compare: returns the
(normalized_offenses, invalid_offenses) pair, both in input order. -/
def normalize_offenses_loop : List String → List String × List String
  | [] => ([], [])
  | offense :: rest =>
    let tail := normalize_offenses_loop rest
    match normalize_offense offense with
    | some normalized => (normalized :: tail.1, tail.2)
    | none => (tail.1, offense :: tail.2)

/-- The suggestion line built for one invalid offense in ucr_compare. -/
def suggestion_for (invalid : String) : String :=
  let invalid_lower := Py.lowerStrip invalid
  if '_' ∈ invalid_lower.data then
    let suggestion := Py.replaceChar '_' '-' invalid_lower
    if suggestion ∈ VALID_OFFENSES then
      "\"" ++ invalid ++ "\" -> Did you mean \"" ++ suggestion ++ "\"?"
    else
      "\"" ++ invalid ++ "\" is not recognized"
  else
    "\"" ++ invalid ++ "\" is not recognized"

/-- ucr_compare.py ucr_compare.  The network is modelled by the `fetch`
oracle giving the outcome of the paired prediction+history fetch per
offense; the second component of the result is the list of offenses for
which an outbound fetch was issued (empty when validation fails). -/
def ucr_compare (offenses : List String) (months_ahead : ℤ) (metric : Metric)
    (state : Option String) (fetch : String → FetchOutcome) :
    Except ToolErr String × List String :=
  if offenses.length < 2 then
    (.error (.tooFewOffenses offenses.length), [])
  else if offenses.length > 5 then
    (.error (.tooManyOffenses offenses.length), [])
  else
    match state with
    | some s =>
      match normalize_state (some s) with
      | none => (.error (.invalidState s), [])
      | some normalized_state => ucr_compare_go offenses months_ahead metric normalized_state fetch
    | none => ucr_compare_go offenses months_ahead metric none fetch
where
  /-- The part of ucr_compare after state validation. -/
  ucr_compare_go (offenses : List String) (months_ahead : ℤ) (metric : Metric)
      (normalized_state : Option String) (fetch : String → FetchOutcome) :
      Except ToolErr String × List String :=
    let pair := normalize_offenses_loop offenses
    let normalized_offenses := pair.1
    let invalid_offenses := pair.2
    if invalid_offenses ≠ [] then
      (.error (.invalidOffenseList (invalid_offenses.map suggestion_for)), [])
    else
      let results := normalized_offenses.map (fun o => fetch_offense_data o (fetch o))
      let all_failed := results.all (fun r => r.2.2.2.isSome)
      if all_failed then
        (.error .serviceUnavailable, normalized_offenses)
      else
        (.ok (format_comparison_output results months_ahead metric.toStr normalized_state),
          normalized_offenses)


end Compare

namespace Forecast

/-- The three caught exception kinds of the outbound HTTP calls in
ucr_forecast.py (Timeout, HTTPStatusError, RequestError). -/
inductive FetchErr
  | timeoutExc
  | httpStatus (code : ℤ) (text : String)
  | requestErr (detail : String)
  deriving DecidableEq

/-- The prediction JSON payload as consumed by ucr_forecast.py. -/
structure PredictData where
  predictions : Option (List Pred) := none
  forecast : Option (List Pred) := none
  metadata : Option ModelInfo := none
  model : Option ModelInfo := none
  model_info : Option ModelInfo := none
  explanation : Option String := none
  deriving DecidableEq

/-- The history JSON payload of ucr_forecast.py, which may be a bare list
or a dict with a "history" or "data" key. -/
inductive HistResp
  | asList (l : List HistEntry)
  | asDict (history : Option (List HistEntry)) (data : Option (List HistEntry))
  deriving DecidableEq

/-- The distinct ToolError failures ucr_forecast can raise. -/
inductive ToolErr
  | invalidOffense (offense : String)
  | invalidState (state : String)
  | invalidMonths (months : ℤ)
  | invalidFormat (format : String)
  | predictionTimeout
  | modelNotFound (offense : String)
  | serviceIssues
  | predictionFailed (code : ℤ) (text : String)
  | connectionFailed (detail : String)
  deriving DecidableEq

/-- Python `round(q, 2)` (half-even). -/
def round2 (q : ℚ) : ℚ := (Py.roundHalfEven (q * 100) : ℚ) / 100

/-- The structured value serialized by format_detailed (json.dumps of this
dict; the serialization itself is not modelled). -/
structure DetailedForecast where
  offense : String
  location : String
  months_forecasted : ℤ
  predictions : List Pred
  trend_direction : String
  trend_percent_change : ℚ
  model : ModelInfo
  history : Option (List HistEntry)
  explanation : Option String
  deriving DecidableEq

/-- ucr_forecast.py format_detailed (up to JSON serialization). -/
def format_detailed (offense : String) (months_ahead : ℤ)
    (predictions : List Pred) (model_info : ModelInfo)
    (history : Option (List HistEntry)) (state : Option String)
    (explanation : Option String) : DetailedForecast :=
  let trend_pc := determine_trend predictions
  { offense := offense
    location := state.getD "national"
    months_forecasted := months_ahead
    predictions := predictions
    trend_direction := trend_pc.1
    trend_percent_change := round2 trend_pc.2
    model := model_info
    history := match history with
      | some entries => if entries ≠ [] then some entries else none
      | none => none
    explanation := explanation }

/-- The return value of ucr_forecast: the summary string or the structured
detailed value. -/
inductive Output
  | summaryOut (s : String)
  | detailedOut (d : DetailedForecast)
  deriving DecidableEq

/-- ucr_forecast.py ucr_forecast.  The two outbound calls are modelled by
the `predictResult` and `historyResult` oracle arguments carrying the
outcome of the prediction fetch and of the optional history fetch. -/
def ucr_forecast (offense : String) (months_ahead : ℤ) (include_history : Bool)
    (format : String) (state : Option String)
    (predictResult : Except FetchErr PredictData)
    (historyResult : Except FetchErr HistResp) : Except ToolErr Output :=
  match normalize_offense offense with
  | none => .error (.invalidOffense offense)
  | some normalized_offense =>
    match state, normalize_state state with
    | some s, none => .error (.invalidState s)
    | none, none => .error (.invalidState "")
    | _, some normalized_state =>
      if ¬(1 ≤ months_ahead ∧ months_ahead ≤ 12) then
        .error (.invalidMonths months_ahead)
      else
        let format_lower := Py.lowerStrip format
        if format_lower ≠ "summary" ∧ format_lower ≠ "detailed" then
          .error (.invalidFormat format)
        else
          match predictResult with
          | .error .timeoutExc => .error .predictionTimeout
          | .error (.httpStatus code text) =>
            if code = 404 then .error (.modelNotFound normalized_offense)
            else if code ≥ 500 then .error .serviceIssues
            else .error (.predictionFailed code text)
          | .error (.requestErr detail) => .error (.connectionFailed detail)
          | .ok predict_data =>
            -- history fetch failures are swallowed: history_data stays None
            let history_json : Option HistResp :=
              if include_history then historyResult.toOption else none
            let history_data : Option (List HistEntry) :=
              match history_json with
              | none => none
              | some (.asList l) => some l
              | some (.asDict history data) => some (history.getD (data.getD []))
            let predictions := (predict_data.predictions).getD ((predict_data.forecast).getD [])
            let model_info :=
              (predict_data.metadata).getD ((predict_data.model).getD ((predict_data.model_info).getD {}))
            let explanation := predict_data.explanation
            if format_lower = "summary" then
              .ok (.summaryOut (format_summary normalized_offense months_ahead predictions
                model_info (if include_history then history_data else none) normalized_state))
            else
              .ok (.detailedOut (format_detailed normalized_offense months_ahead predictions
                model_info (if include_history then history_data else none) normalized_state
                explanation))

end Forecast

namespace Info

/-- Supported states of ucr_info.py (VALID_STATES). -/
def VALID_STATES : List String := ["CA", "TX", "FL", "NY", "IL"]

/-- State display names of ucr_info.py (STATE_NAMES). -/
def STATE_NAMES : List (String × String) :=
  [("CA", "California"), ("TX", "Texas"), ("FL", "Florida"),
   ("NY", "New York"), ("IL", "Illinois")]

/-- Static offense descriptions of ucr_info.py (OFFENSE_DESCRIPTIONS). -/
def OFFENSE_DESCRIPTIONS : List (String × String) :=
  [("violent-crime", "All violent crimes combined (murder, rape, robbery, assault)"),
   ("property-crime", "All property crimes combined (burglary, theft, vehicle theft)"),
   ("homicide", "Murder and non-negligent manslaughter"),
   ("burglary", "Unlawful entry to commit felony"),
   ("motor-vehicle-theft", "Theft or attempted theft of motor vehicles")]

/-- Full month names used by ucr_info.py _format_month. -/
def month_names : List String :=
  ["January", "February", "March", "April", "May", "June",
   "July", "August", "September", "October", "November", "December"]

/-- Split a character list on the dash character (Python `split("-")`). -/
def splitDash : List Char → List (List Char)
  | [] => [[]]
  | c :: rest =>
    if c = '-' then [] :: splitDash rest
    else
      match splitDash rest with
      | h :: t => (c :: h) :: t
      | [] => [[c]]

/-- Python `int(s)` on a digit string; `none` models the ValueError. -/
def parseInt (l : List Char) : Option Nat :=
  if l ≠ [] ∧ l.all (fun c => 48 ≤ c.toNat && c.toNat ≤ 57) then
    some (l.foldl (fun acc c => acc * 10 + (c.toNat - 48)) 0)
  else none

/-- ucr_info.py _format_month: "YYYY-MM" rendered as "December 2024"; the
original string when parsing fails or the month is out of range. -/
def _format_month (date_str : String) : String :=
  let parts := splitDash date_str.data
  if parts.length ≥ 2 then
    match parseInt (parts.getD 1 []) with
    | some month_num =>
      if 1 ≤ month_num ∧ month_num ≤ 12 then
        (month_names.getD (month_num - 1) "") ++ " " ++ (⟨parts.getD 0 []⟩ : String)
      else date_str
    | none => date_str
  else date_str

/-- The parameters block of a model catalog entry; a present
seasonal_order value is modelled as truthy (the API carries non-empty
order tuples). -/
structure Params where
  order : Option String := none
  seasonal_order : Option String := none
  deriving DecidableEq

/-- One model catalog entry as consumed by ucr_info.py. -/
structure ModelJson where
  offense : Option String := none
  location : Option String := none
  description : Option String := none
  model_type : Option String := none
  parameters : Option Params := none
  mape : Option ℚ := none
  training_end : Option String := none
  deriving DecidableEq

/-- ucr_info.py _format_model_type. -/
def _format_model_type (model_info : ModelJson) : String :=
  let model_type := (model_info.model_type).getD "Unknown"
  let params := (model_info.parameters).getD {}
  if params.seasonal_order.isSome then model_type ++ " (seasonal)" else model_type

/-- The four content lines plus blank line emitted for one model in
_format_all_models (enumerate starts at 1). -/
def model_block (idx : Nat) (model : ModelJson) : List String :=
  let offense := (model.offense).getD "unknown"
  let description :=
    (Py.lookupTab OFFENSE_DESCRIPTIONS offense).getD
      ((model.description).getD "No description available")
  let model_type := _format_model_type model
  let mape := (model.mape).getD 0
  let accuracy := 100 - mape
  let training_end := _format_month ((model.training_end).getD "Unknown")
  [toString idx ++ ". " ++ offense,
   "   Description: " ++ description,
   "   Model: " ++ model_type ++ " | Accuracy: " ++ Py.fmt1f accuracy
     ++ "% (MAPE: " ++ Py.fmt1f mape ++ "%)",
   "   Training data through: " ++ training_end,
   ""]

/-- The location filter applied by _format_all_models. -/
def filtered_models (models : List ModelJson) (state : Option String) : List ModelJson :=
  match state with
  | some st => models.filter (fun m => m.location = some st)
  | none => models.filter (fun m => m.location = some "national")

/-- The lines assembled by ucr_info.py _format_all_models; the function
itself returns their newline join. -/
def _format_all_models_lines (models : List ModelJson) (state : Option String) : List String :=
  let header :=
    match state with
    | some st =>
      ["FBI UCR Crime Forecasting Models - " ++ Py.lookupD STATE_NAMES st st,
       "", "Available Models:", ""]
    | none =>
      ["FBI UCR Crime Forecasting Models", "", "Available Models:", ""]
  let body := ((filtered_models models state).enum).flatMap
    (fun p => model_block (p.1 + 1) p.2)
  let footer :=
    match state with
    | some st =>
      ["Data source: FBI Uniform Crime Reporting (UCR) Program",
       "Geographic scope: " ++ Py.lookupD STATE_NAMES st st]
    | none =>
      ["Data source: FBI Uniform Crime Reporting (UCR) Program",
       "Geographic scope: National level",
       "State-level support: CA, TX, FL, NY, IL"]
  header ++ body ++ footer ++ ["Forecast horizon: Up to 12 months"]

/-- ucr_info.py _format_all_models. -/
def _format_all_models (models : List ModelJson) (state : Option String) : String :=
  String.intercalate "\n" (_format_all_models_lines models state)

end Info


/-!
Claims.  Each claim of the specification is settled by one theorem below;
auxiliary lemmas are shared and never carry a claim name.
-/

/-- C2 fails as stated: for a negative baseline the sign of the change is
not preserved.  At (current, forecast) = (-100, -90) the change
forecast - current = +10 is positive, but the function returns -10. -/
theorem claim_C2_counterexample :
    Compare.calculate_percent_change (-100) (-90) = .finite (-10)
    ∧ (0 : ℚ) < (-90) - (-100)
    ∧ (-10 : ℚ) < 0 := by
  refine ⟨?_, by norm_num, by norm_num⟩
  norm_num [Compare.calculate_percent_change]

/-- C2 (amended): calculate_percent_change returns 0 when both arguments
are zero, positive infinity when only current is zero, and otherwise
((forecast - current) / current) * 100; the sign of the change is
preserved whenever current is positive (for a negative current the sign is
flipped). -/
theorem claim_C2_amended :
    Compare.calculate_percent_change 0 0 = .finite 0
    ∧ (∀ f : ℚ, f ≠ 0 → Compare.calculate_percent_change 0 f = .posInf)
    ∧ (∀ c f : ℚ, c ≠ 0 →
        Compare.calculate_percent_change c f = .finite (((f - c) / c) * 100))
    ∧ (∀ c f : ℚ, 0 < c →
        ((0 < f - c ↔ 0 < ((f - c) / c) * 100)
          ∧ (f - c < 0 ↔ ((f - c) / c) * 100 < 0))) := by
  refine ⟨by norm_num [Compare.calculate_percent_change], ?_, ?_, ?_⟩
  · intro f hf
    simp [Compare.calculate_percent_change, hf]
  · intro c f hc
    simp [Compare.calculate_percent_change, hc]
  · intro c f hc
    constructor
    · constructor
      · intro h
        have h1 : 0 < (f - c) / c := div_pos h hc
        nlinarith
      · intro h
        by_contra hle
        push_neg at hle
        have h1 : (f - c) / c ≤ 0 := div_nonpos_of_nonpos_of_nonneg hle (le_of_lt hc)
        nlinarith
    · constructor
      · intro h
        have h1 : (f - c) / c < 0 := div_neg_of_neg_of_pos h hc
        nlinarith
      · intro h
        by_contra hle
        push_neg at hle
        have h1 : 0 ≤ (f - c) / c := div_nonneg hle (le_of_lt hc)
        nlinarith

/-- Witness for claim_C2_amended at concrete inputs. -/
theorem claim_C2_amended_witness :
    ((100 : ℚ) ≠ 0 ∧ Compare.calculate_percent_change 100 110 = .finite (((110 - 100) / 100) * 100))
    ∧ ((100 : ℚ) ≠ 0 ∧ Compare.calculate_percent_change 0 100 = .posInf) := by
  refine ⟨⟨by norm_num, claim_C2_amended.2.2.1 100 110 (by norm_num)⟩,
    ⟨by norm_num, claim_C2_amended.2.1 100 (by norm_num)⟩⟩

/-- C9: normalize_state (duplicated identically in the forecast and
history tools) maps None to None unmodified, returns the upper-cased and
trimmed input when it lies in the closed state set, and fails otherwise;
valid codes are accepted case-insensitively because the membership test is
applied to the upper-cased input. -/
theorem claim_C9_normalize_state :
    Forecast.normalize_state none = some none
    ∧ History.normalize_state none = some none
    ∧ (∀ s : String, Py.upperStrip s ∈ Forecast.VALID_STATES →
        Forecast.normalize_state (some s) = some (some (Py.upperStrip s)))
    ∧ (∀ s : String, Py.upperStrip s ∉ Forecast.VALID_STATES →
        Forecast.normalize_state (some s) = none)
    ∧ (∀ s : String, Py.upperStrip s ∈ History.VALID_STATES →
        History.normalize_state (some s) = some (some (Py.upperStrip s)))
    ∧ (∀ s : String, Py.upperStrip s ∉ History.VALID_STATES →
        History.normalize_state (some s) = none) := by
  refine ⟨rfl, rfl, ?_, ?_, ?_, ?_⟩
  · intro s hs
    simp [Forecast.normalize_state, hs]
  · intro s hs
    simp [Forecast.normalize_state, hs]
  · intro s hs
    simp [History.normalize_state, hs]
  · intro s hs
    simp [History.normalize_state, hs]

/-- Witness for claim_C9_normalize_state at concrete inputs. -/
theorem claim_C9_normalize_state_witness :
    (Py.upperStrip " ca " ∈ Forecast.VALID_STATES
      ∧ Forecast.normalize_state (some " ca ") = some (some (Py.upperStrip " ca ")))
    ∧ (Py.upperStrip "zz" ∉ History.VALID_STATES
      ∧ History.normalize_state (some "zz") = none) := by
  refine ⟨⟨by decide, claim_C9_normalize_state.2.2.1 " ca " (by decide)⟩,
    ⟨by decide, claim_C9_normalize_state.2.2.2.2.2 "zz" (by decide)⟩⟩


/-- C4: determine_trend (and the duplicated calculate_trend of the history
tool) returns (Stable, 0) on fewer than 2 points, depends only on the
first and last element of the series, classifies the percent change with
the +5 and -5 thresholds, and returns (Stable, 0) whenever the first value is
0, in particular on the series [{0}, {100}]. -/
theorem claim_C4_determine_trend :
    (∀ ps : List Forecast.Pred, ps.length < 2 → Forecast.determine_trend ps = ("Stable", 0))
    ∧ (∀ (p q : Forecast.Pred) (mid : List Forecast.Pred),
        Forecast.determine_trend (p :: (mid ++ [q])) = Forecast.determine_trend [p, q])
    ∧ (∀ p q : Forecast.Pred, p.predicted.getD 0 = 0 →
        Forecast.determine_trend [p, q] = ("Stable", 0))
    ∧ (∀ p q : Forecast.Pred, p.predicted.getD 0 ≠ 0 →
        Forecast.determine_trend [p, q] =
          (if ((q.predicted.getD 0 - p.predicted.getD 0) / p.predicted.getD 0) * 100 > 5 then
            ("Increasing", ((q.predicted.getD 0 - p.predicted.getD 0) / p.predicted.getD 0) * 100)
          else if ((q.predicted.getD 0 - p.predicted.getD 0) / p.predicted.getD 0) * 100 < -5 then
            ("Decreasing", ((q.predicted.getD 0 - p.predicted.getD 0) / p.predicted.getD 0) * 100)
          else ("Stable", ((q.predicted.getD 0 - p.predicted.getD 0) / p.predicted.getD 0) * 100)))
    ∧ Forecast.determine_trend [{ predicted := some 0 }, { predicted := some 100 }] = ("Stable", 0)
    ∧ (∀ ps : List History.HPoint, ps.length < 2 → History.calculate_trend ps = ("Stable", 0))
    ∧ (∀ (p q : History.HPoint) (mid : List History.HPoint),
        History.calculate_trend (p :: (mid ++ [q])) = History.calculate_trend [p, q])
    ∧ (∀ p q : History.HPoint, p.actual.getD 0 = 0 →
        History.calculate_trend [p, q] = ("Stable", 0))
    ∧ (∀ p q : History.HPoint, p.actual.getD 0 ≠ 0 →
        History.calculate_trend [p, q] =
          (if ((q.actual.getD 0 - p.actual.getD 0) / p.actual.getD 0) * 100 > 5 then
            ("Increasing", ((q.actual.getD 0 - p.actual.getD 0) / p.actual.getD 0) * 100)
          else if ((q.actual.getD 0 - p.actual.getD 0) / p.actual.getD 0) * 100 < -5 then
            ("Decreasing", ((q.actual.getD 0 - p.actual.getD 0) / p.actual.getD 0) * 100)
          else ("Stable", ((q.actual.getD 0 - p.actual.getD 0) / p.actual.getD 0) * 100))) := by
  refine ⟨?_, ?_, ?_, ?_, by decide, ?_, ?_, ?_, ?_⟩
  · intro ps h
    match ps with
    | [] => rfl
    | [_] => rfl
    | a :: b :: t => simp [List.length_cons] at h; omega
  · intro p q mid
    cases mid with
    | nil => rfl
    | cons a l =>
      rw [List.cons_append]
      have h1 : (p :: a :: (l ++ [q])).getLast? = some q := by
        rw [show p :: a :: (l ++ [q]) = (p :: a :: l) ++ [q] by simp, List.getLast?_concat]
      have h2 : ([p, q] : List Forecast.Pred).getLast? = some q := by simp
      simp only [Forecast.determine_trend, h1, h2]
  · intro p q h
    simp only [Forecast.determine_trend, h]
    simp
  · intro p q h
    have h2 : ([p, q] : List Forecast.Pred).getLast? = some q := by simp
    simp only [Forecast.determine_trend, h2, h, if_neg h]
    simp
  · intro ps h
    match ps with
    | [] => rfl
    | [_] => rfl
    | a :: b :: t => simp [List.length_cons] at h; omega
  · intro p q mid
    cases mid with
    | nil => rfl
    | cons a l =>
      rw [List.cons_append]
      have h1 : (p :: a :: (l ++ [q])).getLast? = some q := by
        rw [show p :: a :: (l ++ [q]) = (p :: a :: l) ++ [q] by simp, List.getLast?_concat]
      have h2 : ([p, q] : List History.HPoint).getLast? = some q := by simp
      simp only [History.calculate_trend, h1, h2]
  · intro p q h
    simp only [History.calculate_trend, h]
    simp
  · intro p q h
    have h2 : ([p, q] : List History.HPoint).getLast? = some q := by simp
    simp only [History.calculate_trend, h2, h, if_neg h]
    simp

/-- Witness for claim_C4_determine_trend at concrete inputs. -/
theorem claim_C4_determine_trend_witness :
    (([] : List Forecast.Pred).length < 2 ∧ Forecast.determine_trend [] = ("Stable", 0))
    ∧ (({ predicted := some 0 } : Forecast.Pred).predicted.getD 0 = 0
      ∧ Forecast.determine_trend
          [{ predicted := some 0 }, { predicted := some 100 }] = ("Stable", 0))
    ∧ (([{ actual := some 7 }] : List History.HPoint).length < 2
      ∧ History.calculate_trend [{ actual := some 7 }] = ("Stable", 0)) := by
  refine ⟨⟨by decide, claim_C4_determine_trend.1 [] (by decide)⟩,
    ⟨by decide, claim_C4_determine_trend.2.2.1 _ _ (by decide)⟩,
    ⟨by decide, claim_C4_determine_trend.2.2.2.2.2.1 [{ actual := some 7 }] (by decide)⟩⟩


/-- Do two normalizers agree at an input whenever both succeed. -/
def agreeAt (f g : String → Option String) (c : String) : Bool :=
  match f c, g c with
  | some v, some w => decide (v = w)
  | _, _ => true

theorem lookup_mem_keys {valid : List String} {aliases : List (String × String)}
    {c v : String}
    (h : (if c ∈ valid then some c else Py.lookupTab aliases c) = some v) :
    c ∈ valid ++ aliases.map Prod.fst := by
  by_cases hc : c ∈ valid
  · simp [hc]
  · rw [if_neg hc] at h
    have hm := Py.lookupTab_mem h
    rw [List.mem_append]
    right
    rw [List.mem_map]
    exact ⟨(c, v), hm, rfl⟩

theorem agree_of_lookup {keys : List String} {f g : String → Option String}
    (hdom : ∀ c v, f c = some v → c ∈ keys)
    (hagree : ∀ c ∈ keys, agreeAt f g c = true)
    {s v w : String} (hf : f s = some v) (hg : g s = some w) : v = w := by
  have ha := hagree s (hdom s v hf)
  simp only [agreeAt, hf, hg] at ha
  exact of_decide_eq_true ha

/-- C3 fails as stated: the three normalize_offense duplicates do not
agree on the input "homicides", which the forecast and history tools
accept but the compare tool rejects. -/
theorem claim_C3_counterexample :
    Forecast.normalize_offense "homicides" = some "homicide"
    ∧ History.normalize_offense "homicides" = some "homicide"
    ∧ Compare.normalize_offense "homicides" = none := by
  decide

/-- C3 (amended): the three normalize_offense duplicates agree on every
canonical offense, and whenever two of them accept the same input they
return the same canonical value; their accepted alias sets differ,
however, so one tool may reject an input another accepts. -/
theorem claim_C3_amended :
    (∀ c ∈ Forecast.VALID_OFFENSES,
      Forecast.normalize_offense c = some c
        ∧ History.normalize_offense c = some c
        ∧ Compare.normalize_offense c = some c)
    ∧ (∀ s v w, Forecast.normalize_offense s = some v →
        History.normalize_offense s = some w → v = w)
    ∧ (∀ s v w, Forecast.normalize_offense s = some v →
        Compare.normalize_offense s = some w → v = w)
    ∧ (∀ s v w, History.normalize_offense s = some v →
        Compare.normalize_offense s = some w → v = w) := by
  have hdomF : ∀ c v, Forecast.offense_lookup c = some v →
      c ∈ Forecast.VALID_OFFENSES ++ Forecast.OFFENSE_ALIASES.map Prod.fst :=
    fun _ _ h => lookup_mem_keys h
  have hdomH : ∀ c v, History.offense_lookup c = some v →
      c ∈ History.VALID_OFFENSES ++ History.OFFENSE_ALIASES.map Prod.fst :=
    fun _ _ h => lookup_mem_keys h
  refine ⟨by decide, ?_, ?_, ?_⟩
  · intro s v w hf hg
    exact agree_of_lookup hdomF (by decide) hf hg
  · intro s v w hf hg
    exact agree_of_lookup hdomF (by decide) hf hg
  · intro s v w hf hg
    exact agree_of_lookup hdomH (by decide) hf hg

/-- Witness for claim_C3_amended at a concrete input accepted by two
duplicates. -/
theorem claim_C3_amended_witness :
    Forecast.normalize_offense "murder" = some "homicide"
    ∧ Compare.normalize_offense "murder" = some "homicide"
    ∧ ("homicide" : String) = "homicide" := by
  refine ⟨by decide, by decide, ?_⟩
  exact claim_C3_amended.2.2.1 "murder" "homicide" "homicide" (by decide) (by decide)


/-- C8: with fewer than 2 offenses ucr_compare fails with the too-few
error and with more than 5 it fails with the too-many error, in both
cases with an empty fetch log, i.e. before any outbound call is issued. -/
theorem claim_C8_count_bounds :
    ∀ (offenses : List String) (m : ℤ) (metric : Compare.Metric)
      (st : Option String) (fetch : String → Compare.FetchOutcome),
      (offenses.length < 2 →
        Compare.ucr_compare offenses m metric st fetch
          = (.error (.tooFewOffenses offenses.length), []))
      ∧ (offenses.length > 5 →
        Compare.ucr_compare offenses m metric st fetch
          = (.error (.tooManyOffenses offenses.length), [])) := by
  intro offenses m metric st fetch
  constructor
  · intro h
    unfold Compare.ucr_compare
    rw [if_pos h]
  · intro h
    unfold Compare.ucr_compare
    rw [if_neg (by omega), if_pos h]

/-- Witness for claim_C8_count_bounds at concrete inputs. -/
theorem claim_C8_count_bounds_witness :
    ((["homicide"] : List String).length < 2
      ∧ Compare.ucr_compare ["homicide"] 6 .percent_change none
          (fun _ => .timeoutExc)
        = (.error (.tooFewOffenses 1), []))
    ∧ ((["homicide", "burglary", "violent-crime", "property-crime",
        "motor-vehicle-theft", "homicide"] : List String).length > 5
      ∧ Compare.ucr_compare
          ["homicide", "burglary", "violent-crime", "property-crime",
            "motor-vehicle-theft", "homicide"] 6 .percent_change none
          (fun _ => .timeoutExc)
        = (.error (.tooManyOffenses 6), [])) := by
  refine ⟨⟨by decide, ?_⟩, ⟨by decide, ?_⟩⟩
  · exact (claim_C8_count_bounds ["homicide"] 6 .percent_change none
      (fun _ => .timeoutExc)).1 (by decide)
  · exact (claim_C8_count_bounds _ 6 .percent_change none
      (fun _ => .timeoutExc)).2 (by decide)

theorem ucr_compare_eq_go {offenses : List String} {m : ℤ} {metric : Compare.Metric}
    {st : Option String} {fetch : String → Compare.FetchOutcome} {nst : Option String}
    (h2 : ¬ offenses.length < 2) (h5 : ¬ offenses.length > 5)
    (hst : Compare.normalize_state st = some nst) :
    Compare.ucr_compare offenses m metric st fetch
      = Compare.ucr_compare.ucr_compare_go offenses m metric nst fetch := by
  unfold Compare.ucr_compare
  rw [if_neg h2, if_neg h5]
  cases st with
  | none =>
    simp only [Compare.normalize_state] at hst
    injection hst with hst
    subst hst
    rfl
  | some s =>
    simp only [hst]

theorem normalize_offenses_loop_fst (l : List String) :
    (Compare.normalize_offenses_loop l).1 = l.filterMap Compare.normalize_offense := by
  induction l with
  | nil => rfl
  | cons o rest ih =>
    simp only [Compare.normalize_offenses_loop, List.filterMap_cons]
    cases h : Compare.normalize_offense o <;> simp [h, ih]

theorem normalize_offenses_loop_snd (l : List String) :
    (Compare.normalize_offenses_loop l).2
      = l.filter (fun o => (Compare.normalize_offense o).isNone) := by
  induction l with
  | nil => rfl
  | cons o rest ih =>
    simp only [Compare.normalize_offenses_loop, List.filter_cons]
    cases h : Compare.normalize_offense o <;> simp [h, ih]

theorem fetch_offense_data_err (o : String) (outcome : Compare.FetchOutcome) :
    ((Compare.fetch_offense_data o outcome).2.2.2).isSome = outcome.isErr := by
  cases outcome <;> rfl

/-- C5: when validation succeeds, the compare tool fails with the single
service-unavailable error exactly when every fetched offense's paired
fetch returned an error; if at least one succeeded, the formatted
comparison table is returned. -/
theorem claim_C5_all_failed :
    ∀ (offenses : List String) (m : ℤ) (metric : Compare.Metric) (st : Option String)
      (fetch : String → Compare.FetchOutcome) (nst : Option String),
      2 ≤ offenses.length → offenses.length ≤ 5 →
      Compare.normalize_state st = some nst →
      (Compare.normalize_offenses_loop offenses).2 = [] →
      ((∀ o ∈ (Compare.normalize_offenses_loop offenses).1, (fetch o).isErr = true) →
        Compare.ucr_compare offenses m metric st fetch
          = (.error .serviceUnavailable, (Compare.normalize_offenses_loop offenses).1))
      ∧ ((∃ o ∈ (Compare.normalize_offenses_loop offenses).1, (fetch o).isErr = false) →
        Compare.ucr_compare offenses m metric st fetch
          = (.ok (Compare.format_comparison_output
              ((Compare.normalize_offenses_loop offenses).1.map
                (fun o => Compare.fetch_offense_data o (fetch o))) m metric.toStr nst),
            (Compare.normalize_offenses_loop offenses).1)) := by
  intro offenses m metric st fetch nst h2 h5 hst hinv
  have hgo := @ucr_compare_eq_go offenses m metric st fetch nst
    (by omega) (by omega) hst
  constructor
  · intro hall
    rw [hgo]
    simp only [Compare.ucr_compare.ucr_compare_go, hinv]
    rw [if_neg (by simp)]
    rw [if_pos ?_]
    refine List.all_eq_true.mpr ?_
    intro r hr
    obtain ⟨o, ho, rfl⟩ := List.mem_map.mp hr
    rw [fetch_offense_data_err]
    exact hall o ho
  · intro hex
    obtain ⟨o, ho, hok⟩ := hex
    rw [hgo]
    simp only [Compare.ucr_compare.ucr_compare_go, hinv]
    rw [if_neg (by simp)]
    rw [if_neg ?_]
    intro hall
    have := List.all_eq_true.mp hall _
      (List.mem_map.mpr ⟨o, ho, rfl⟩)
    rw [fetch_offense_data_err, hok] at this
    exact Bool.false_ne_true this

/-- Witness for claim_C5_all_failed at a concrete invocation whose every
fetch raises a connection error. -/
theorem claim_C5_all_failed_witness :
    (2 ≤ (["homicide", "burglary"] : List String).length
      ∧ (["homicide", "burglary"] : List String).length ≤ 5
      ∧ Compare.normalize_state none = some none
      ∧ (Compare.normalize_offenses_loop ["homicide", "burglary"]).2 = []
      ∧ (∀ o ∈ (Compare.normalize_offenses_loop ["homicide", "burglary"]).1,
          ((fun (_ : String) => Compare.FetchOutcome.requestError "down") o).isErr = true))
    ∧ Compare.ucr_compare ["homicide", "burglary"] 6 .percent_change none
        (fun _ => .requestError "down")
      = (.error .serviceUnavailable,
          (Compare.normalize_offenses_loop ["homicide", "burglary"]).1) := by
  refine ⟨⟨by decide, by decide, by decide, by decide, by decide⟩, ?_⟩
  exact (claim_C5_all_failed ["homicide", "burglary"] 6 .percent_change none
    (fun _ => .requestError "down") none (by decide) (by decide) (by decide)
    (by decide)).1 (by decide)


/-- C7: with a valid offense count but at least one unrecognized offense,
ucr_compare normalizes every entry (the collected invalid entries are
exactly the entries of the input list failing normalization, in order),
aggregates them into the single invalid-offense-list error with one
suggestion line per invalid entry, issues no fetch, and an invalid entry
whose underscore-for-hyphen correction is canonical gets a
"Did you mean" suggestion. -/
theorem claim_C7_aggregate_invalid :
    ∀ (offenses : List String) (m : ℤ) (metric : Compare.Metric) (st : Option String)
      (fetch : String → Compare.FetchOutcome) (nst : Option String),
      2 ≤ offenses.length → offenses.length ≤ 5 →
      Compare.normalize_state st = some nst →
      (Compare.normalize_offenses_loop offenses).2 ≠ [] →
      Compare.ucr_compare offenses m metric st fetch
        = (.error (.invalidOffenseList
            ((offenses.filter (fun o => (Compare.normalize_offense o).isNone)).map
              Compare.suggestion_for)), [])
      ∧ (Compare.normalize_offenses_loop offenses).2
          = offenses.filter (fun o => (Compare.normalize_offense o).isNone)
      ∧ (∀ inv : String, '_' ∈ (Py.lowerStrip inv).data →
          Py.replaceChar '_' '-' (Py.lowerStrip inv) ∈ Compare.VALID_OFFENSES →
          Compare.suggestion_for inv
            = "\"" ++ inv ++ "\" -> Did you mean \""
              ++ Py.replaceChar '_' '-' (Py.lowerStrip inv) ++ "\"?") := by
  intro offenses m metric st fetch nst h2 h5 hst hinv
  refine ⟨?_, normalize_offenses_loop_snd offenses, ?_⟩
  · rw [ucr_compare_eq_go (by omega) (by omega) hst]
    simp only [Compare.ucr_compare.ucr_compare_go]
    rw [if_pos hinv, normalize_offenses_loop_snd]
  · intro inv hu hc
    simp only [Compare.suggestion_for]
    rw [if_pos hu, if_pos hc]

/-- Witness for claim_C7_aggregate_invalid at a concrete offense list with
one invalid entry carrying an underscore correction. -/
theorem claim_C7_aggregate_invalid_witness :
    (2 ≤ (["homicide", "motor_vehicle-theft"] : List String).length
      ∧ (["homicide", "motor_vehicle-theft"] : List String).length ≤ 5
      ∧ Compare.normalize_state none = some none
      ∧ (Compare.normalize_offenses_loop ["homicide", "motor_vehicle-theft"]).2 ≠ []
      ∧ '_' ∈ (Py.lowerStrip "motor_vehicle-theft").data
      ∧ Py.replaceChar '_' '-' (Py.lowerStrip "motor_vehicle-theft") ∈ Compare.VALID_OFFENSES)
    ∧ Compare.ucr_compare ["homicide", "motor_vehicle-theft"] 6 .percent_change none
        (fun _ => .timeoutExc)
      = (.error (.invalidOffenseList
          (((["homicide", "motor_vehicle-theft"] : List String).filter
            (fun o => (Compare.normalize_offense o).isNone)).map
            Compare.suggestion_for)), [])
    ∧ Compare.suggestion_for "motor_vehicle-theft"
      = "\"" ++ "motor_vehicle-theft" ++ "\" -> Did you mean \""
        ++ Py.replaceChar '_' '-' (Py.lowerStrip "motor_vehicle-theft") ++ "\"?" := by
  refine ⟨⟨by decide, by decide, by decide, by decide, by decide, by decide⟩, ?_, ?_⟩
  · exact (claim_C7_aggregate_invalid ["homicide", "motor_vehicle-theft"] 6
      .percent_change none (fun _ => .timeoutExc) none (by decide) (by decide)
      (by decide) (by decide)).1
  · exact (claim_C7_aggregate_invalid ["homicide", "motor_vehicle-theft"] 6
      .percent_change none (fun _ => .timeoutExc) none (by decide) (by decide)
      (by decide) (by decide)).2.2 "motor_vehicle-theft" (by decide) (by decide)


/-- Is the history payload of a comparison row absent, without a "data"
list, or with an empty one. -/
def hist_emptyB : Option Compare.HistJson → Bool
  | none => true
  | some hj =>
    match hj.data with
    | none => true
    | some [] => true
    | some (_ :: _) => false

/-- Is the prediction payload of a comparison row absent, without a
"predictions" list, or with an empty one. -/
def pred_emptyB : Option Compare.PredJson → Bool
  | none => true
  | some pj =>
    match pj.predictions with
    | none => true
    | some [] => true
    | some (_ :: _) => false

/-- C10: in the compare tool's table assembly a row without an error whose
history payload is missing, lacks a "data" list or has an empty one gets
current value 0, and likewise for the prediction payload and the forecast
value; such a row renders exactly like a fully-defaulted row, its percent
change is calculate_percent_change 0 0 = 0 when both default, it still
appears among the output lines, and it contributes no error line. -/
theorem claim_C10_row_defaults :
    (∀ h, hist_emptyB h = true → Compare.extract_current h = 0)
    ∧ (∀ p, pred_emptyB p = true → Compare.extract_forecast p = 0)
    ∧ Compare.calculate_percent_change 0 0 = .finite 0
    ∧ (∀ (w : Nat) (metric o : String) (p : Option Compare.PredJson)
        (h : Option Compare.HistJson),
        hist_emptyB h = true → pred_emptyB p = true →
        Compare.row_entry w metric (o, p, h, none)
          = Compare.row_entry w metric (o, none, none, none))
    ∧ (∀ (results : List Compare.ResultRow) (m : ℤ) (metric : String)
        (st : Option String) (r : Compare.ResultRow),
        r ∈ results → r.2.2.2 = none →
        ∃ row, Compare.row_entry (Compare.table_width results) metric r = some row
          ∧ row ∈ Compare.format_comparison_output_lines results m metric st)
    ∧ (∀ r : Compare.ResultRow, r.2.2.2 = none → Compare.err_entry r = none) := by
  have hcur : ∀ h, hist_emptyB h = true → Compare.extract_current h = 0 := by
    intro h hh
    match h with
    | none => rfl
    | some hj =>
      match hj, hh with
      | ⟨none⟩, _ => rfl
      | ⟨some []⟩, _ => rfl
  have hfc : ∀ p, pred_emptyB p = true → Compare.extract_forecast p = 0 := by
    intro p hp
    match p with
    | none => rfl
    | some pj =>
      match pj, hp with
      | ⟨none, md⟩, _ => rfl
      | ⟨some [], md⟩, _ => rfl
  refine ⟨hcur, hfc, by decide, ?_, ?_, ?_⟩
  · intro w metric o p h hh hp
    simp only [Compare.row_entry, Option.isSome_none, Bool.false_eq_true, if_false,
      hcur h hh, hfc p hp, hcur none rfl, hfc none rfl]
  · intro results m metric st r hr herr
    have hsome : (Compare.row_entry (Compare.table_width results) metric r).isSome = true := by
      obtain ⟨o, p, h, e⟩ := r
      simp only at herr
      subst herr
      by_cases hm : metric = "percent_change"
      · simp only [Compare.row_entry, Option.isSome_none, Bool.false_eq_true, if_false,
          if_pos hm, Option.isSome_some]
      · simp only [Compare.row_entry, Option.isSome_none, Bool.false_eq_true, if_false,
          if_neg hm, Option.isSome_some]
    obtain ⟨row, hrow⟩ := Option.isSome_iff_exists.mp hsome
    refine ⟨row, hrow, ?_⟩
    have hmem : row ∈ results.filterMap
        (Compare.row_entry (Compare.table_width results) metric) :=
      List.mem_filterMap.mpr ⟨r, hr, hrow⟩
    simp only [Compare.format_comparison_output_lines, List.mem_append]
    tauto
  · intro r herr
    obtain ⟨o, p, h, e⟩ := r
    simp only at herr
    subst herr
    rfl

/-- Witness for claim_C10_row_defaults at a concrete result list whose
single row has an empty history payload and an empty prediction list. -/
theorem claim_C10_row_defaults_witness :
    (hist_emptyB (some { data := none }) = true
      ∧ pred_emptyB (some { predictions := some [] }) = true
      ∧ (("homicide", some { predictions := some [] }, some { data := none }, none)
          : Compare.ResultRow)
        ∈ [(("homicide", some { predictions := some [] }, some { data := none }, none)
          : Compare.ResultRow)])
    ∧ Compare.extract_current (some { data := none }) = 0
    ∧ Compare.extract_forecast (some { predictions := some [] }) = 0
    ∧ (∃ row, Compare.row_entry
        (Compare.table_width
          [(("homicide", some { predictions := some [] }, some { data := none }, none)
            : Compare.ResultRow)]) "percent_change"
        ("homicide", some { predictions := some [] }, some { data := none }, none)
          = some row
      ∧ row ∈ Compare.format_comparison_output_lines
          [(("homicide", some { predictions := some [] }, some { data := none }, none)
            : Compare.ResultRow)] 6 "percent_change" none) := by
  refine ⟨⟨by decide, by decide, by decide⟩, ?_, ?_, ?_⟩
  · exact claim_C10_row_defaults.1 _ (by decide)
  · exact claim_C10_row_defaults.2.1 _ (by decide)
  · exact claim_C10_row_defaults.2.2.2.2.1
      [(("homicide", some { predictions := some [] }, some { data := none }, none)
        : Compare.ResultRow)] 6 "percent_change" none
      ("homicide", some { predictions := some [] }, some { data := none }, none)
      (by decide) (by decide)


/-- C1 fails as stated: for metadata with mape = 0 (which lies in the
valid range), the forecast summary footer does not report 100 - mape =
100; the Python truthiness test on mape makes it fall back to the
metadata's accuracy field, which defaults to 0. -/
theorem claim_C1_counterexample :
    (Forecast.format_summary_lines "homicide" 1 []
      { model_type := some "Test", mape := some 0, training_end := some "2024-12" }
      none none).getLast?
      = some "Model: Test | Accuracy: 0.0% | Data through: Dec 2024"
    ∧ (100 : ℚ) - 0 = 100
    ∧ Py.fmt1f 100 = "100.0"
    ∧ ("Model: Test | Accuracy: 0.0% | Data through: Dec 2024" : String)
      ≠ "Model: Test | Accuracy: 100.0% | Data through: Dec 2024" := by
  have h0 : Py.fmt1f 0 = "0.0" := by
    have h1 : Py.roundHalfEven (|(0 : ℚ)| * 10) = 0 := by norm_num [Py.roundHalfEven]
    simp only [Py.fmt1f, Py.fmt1fMag, h1]
    decide
  have h100 : Py.fmt1f 100 = "100.0" := by
    have h1 : Py.roundHalfEven (|(100 : ℚ)| * 10) = 1000 := by norm_num [Py.roundHalfEven]
    simp only [Py.fmt1f, Py.fmt1fMag, h1]
    decide
  refine ⟨?_, by norm_num, h100, by decide⟩
  simp only [Forecast.format_summary_lines, List.getLast?_concat, Option.getD_some,
    Option.getD_none]
  rw [if_neg (by norm_num)]
  rw [h0]
  decide

/-- C1 (amended): the info tool's model listing always reports accuracy
100 - mape, and the forecast summary footer reports accuracy 100 - mape
whenever mape is nonzero; at mape = 0 the forecast footer instead falls
back to the metadata's accuracy field (default 0). -/
theorem claim_C1_amended :
    (∀ (models : List Info.ModelJson) (st : Option String) (model : Info.ModelJson)
      (idx : Nat) (mape : ℚ),
      (idx, model) ∈ (Info.filtered_models models st).enum →
      model.mape = some mape →
      "   Model: " ++ Info._format_model_type model ++ " | Accuracy: "
        ++ Py.fmt1f (100 - mape) ++ "% (MAPE: " ++ Py.fmt1f mape ++ "%)"
        ∈ Info._format_all_models_lines models st)
    ∧ (∀ (offense : String) (ma : ℤ) (preds : List Forecast.Pred)
        (mi : Forecast.ModelInfo) (hist : Option (List Forecast.HistEntry))
        (st : Option String) (mape : ℚ),
        mi.mape = some mape → mape ≠ 0 →
        (Forecast.format_summary_lines offense ma preds mi hist st).getLast?
          = some ("Model: " ++ ((mi.model_type).getD ((mi.model).getD "Unknown"))
            ++ " | Accuracy: " ++ Py.fmt1f (100 - mape) ++ "% | Data through: "
            ++ Forecast.format_month ((mi.training_end).getD ((mi.data_through).getD "")))) := by
  constructor
  · intro models st model idx mape hmem hmape
    have hline : "   Model: " ++ Info._format_model_type model ++ " | Accuracy: "
        ++ Py.fmt1f (100 - mape) ++ "% (MAPE: " ++ Py.fmt1f mape ++ "%)"
        ∈ Info.model_block (idx + 1) model := by
      simp [Info.model_block, hmape]
    simp only [Info._format_all_models_lines, List.mem_append]
    left
    left
    right
    refine List.mem_flatMap.mpr ⟨(idx, model), hmem, ?_⟩
    simpa using hline
  · intro offense ma preds mi hist st mape hmape hne
    simp only [Forecast.format_summary_lines, List.getLast?_concat, hmape,
      Option.getD_some]
    rw [if_pos hne]

/-- A concrete model catalog entry used to instantiate the accuracy
claims. -/
def sample_info_model : Info.ModelJson :=
  { offense := some "homicide", location := some "national",
    model_type := some "Prophet", mape := some 5, training_end := some "2024-10" }

/-- Concrete forecast model metadata used to instantiate the accuracy
claims. -/
def sample_forecast_mi : Forecast.ModelInfo :=
  { model_type := some "SARIMA", mape := some 5, training_end := some "2024-12" }

/-- Witness for claim_C1_amended at concrete model metadata. -/
theorem claim_C1_amended_witness :
    ((0, sample_info_model) ∈ (Info.filtered_models [sample_info_model] none).enum
      ∧ sample_info_model.mape = some 5
      ∧ "   Model: " ++ Info._format_model_type sample_info_model ++ " | Accuracy: "
          ++ Py.fmt1f (100 - 5) ++ "% (MAPE: " ++ Py.fmt1f 5 ++ "%)"
        ∈ Info._format_all_models_lines [sample_info_model] none)
    ∧ (sample_forecast_mi.mape = some 5
      ∧ (5 : ℚ) ≠ 0
      ∧ (Forecast.format_summary_lines "homicide" 6 [] sample_forecast_mi
          none none).getLast?
        = some ("Model: " ++ "SARIMA" ++ " | Accuracy: " ++ Py.fmt1f (100 - 5)
            ++ "% | Data through: " ++ Forecast.format_month "2024-12")) := by
  refine ⟨⟨by decide, by decide, ?_⟩, ⟨by decide, by decide, ?_⟩⟩
  · exact claim_C1_amended.1 [sample_info_model] none sample_info_model 0 5
      (by decide) (by decide)
  · exact claim_C1_amended.2 "homicide" 6 [] sample_forecast_mi none none 5
      (by decide) (by decide)

theorem forecast_normalize_valid {s v : String}
    (h : Forecast.normalize_offense s = some v) : v ∈ Forecast.VALID_OFFENSES := by
  have h' : Forecast.offense_lookup (Py.lowerStrip s) = some v := h
  unfold Forecast.offense_lookup at h'
  by_cases hc : Py.lowerStrip s ∈ Forecast.VALID_OFFENSES
  · rw [if_pos hc] at h'
    injection h' with h'
    subst h'
    exact hc
  · rw [if_neg hc] at h'
    have hm := Py.lookupTab_mem h'
    have hall : ∀ p ∈ Forecast.OFFENSE_ALIASES, p.2 ∈ Forecast.VALID_OFFENSES := by decide
    exact hall _ hm

theorem head_ne_recent {s : String} {c : Char} {l : List Char}
    (h : s.data = c :: l) (hc : c ≠ 'R') : s ≠ "Recent History:" := by
  intro he
  subst he
  rw [show ("Recent History:" : String).data = 'R' :: "ecent History:".data from by decide] at h
  injection h with h1 _
  exact hc h1.symm

theorem app_data_cons {a : String} {c : Char} {l : List Char}
    (ha : a.data = c :: l) (b : String) : (a ++ b).data = c :: (l ++ b.data) := by
  rw [String.data_append, ha]
  rfl

theorem prediction_line_ne_recent (p : Forecast.Pred) :
    Forecast.prediction_line p ≠ "Recent History:" := by
  have hd : ("- " : String).data = '-' :: " ".data := by decide
  exact head_ne_recent
    (app_data_cons (app_data_cons (app_data_cons (app_data_cons (app_data_cons
      (app_data_cons (app_data_cons hd _) _) _) _) _) _) _) (by decide)

theorem display_head (no : String) (hno : no ∈ Forecast.VALID_OFFENSES) :
    ∃ c l, (Py.title (Py.replaceChar '-' ' ' no)).data = c :: l ∧ c ≠ 'R' := by
  fin_cases hno
  · exact ⟨'V', "iolent Crime".data, by decide, by decide⟩
  · exact ⟨'P', "roperty Crime".data, by decide, by decide⟩
  · exact ⟨'H', "omicide".data, by decide, by decide⟩
  · exact ⟨'B', "urglary".data, by decide, by decide⟩
  · exact ⟨'M', "otor Vehicle Theft".data, by decide, by decide⟩

theorem recent_history_not_mem {no : String} (hno : no ∈ Forecast.VALID_OFFENSES)
    (ma : ℤ) (preds : List Forecast.Pred) (mi : Forecast.ModelInfo)
    (st : Option String) :
    "Recent History:" ∉ Forecast.format_summary_lines no ma preds mi none st := by
  obtain ⟨c, l, hd, hc⟩ := display_head no hno
  intro hmem
  simp only [Forecast.format_summary_lines, List.mem_append, List.mem_cons,
    List.not_mem_nil, List.mem_singleton, List.mem_map, or_false, false_or] at hmem
  rcases hmem with ((((((h | h) | h) | ⟨p, _, hp⟩) | h) | h) | h)
  · cases st with
    | none =>
      exact head_ne_recent
        (app_data_cons (app_data_cons (app_data_cons hd _) _) _) hc h.symm
    | some s =>
      exact head_ne_recent
        (app_data_cons (app_data_cons (app_data_cons (app_data_cons (app_data_cons
          hd _) _) _) _) _) hc h.symm
  · exact absurd h (by decide)
  · exact absurd h (by decide)
  · exact prediction_line_ne_recent p hp
  · exact absurd h (by decide)
  · exact head_ne_recent
      (app_data_cons (app_data_cons (app_data_cons (app_data_cons
        (show ("Trend: " : String).data = 'T' :: "rend: ".data from by decide) _) _) _) _)
      (by decide) h.symm
  · exact head_ne_recent
      (app_data_cons (app_data_cons (app_data_cons (app_data_cons (app_data_cons
        (show ("Model: " : String).data = 'M' :: "odel: ".data from by decide) _) _) _) _) _)
      (by decide) h.symm


/-- C6: a forecast invocation with include_history = true whose prediction
fetch succeeds but whose history fetch fails still succeeds, returning the
summary built with no history, and that summary's lines do not contain the
"Recent History:" block header; the history failure is never surfaced. -/
theorem claim_C6_history_failure_swallowed :
    ∀ (offense : String) (ma : ℤ) (format : String) (st : Option String)
      (pd : Forecast.PredictData) (e : Forecast.FetchErr) (no : String)
      (nst : Option String),
      Forecast.normalize_offense offense = some no →
      Forecast.normalize_state st = some nst →
      1 ≤ ma → ma ≤ 12 →
      Py.lowerStrip format = "summary" →
      Forecast.ucr_forecast offense ma true format st (.ok pd) (.error e)
        = .ok (.summaryOut (Forecast.format_summary no ma
            ((pd.predictions).getD ((pd.forecast).getD []))
            ((pd.metadata).getD ((pd.model).getD ((pd.model_info).getD {}))) none nst))
      ∧ "Recent History:" ∉ Forecast.format_summary_lines no ma
          ((pd.predictions).getD ((pd.forecast).getD []))
          ((pd.metadata).getD ((pd.model).getD ((pd.model_info).getD {}))) none nst := by
  intro offense ma format st pd e no nst hno hst h1 h12 hfmt
  constructor
  · unfold Forecast.ucr_forecast
    rw [hno]
    cases st with
    | none =>
      simp only [Forecast.normalize_state] at hst
      injection hst with hst
      subst hst
      simp only [Forecast.normalize_state, hfmt]
      rw [if_neg (fun hn => hn ⟨h1, h12⟩)]
      rw [if_neg (by simp)]
      simp [Except.toOption]
    | some s =>
      simp only [hst, hfmt]
      rw [if_neg (fun hn => hn ⟨h1, h12⟩)]
      rw [if_neg (by simp)]
      simp [Except.toOption]
  · exact recent_history_not_mem (forecast_normalize_valid hno) ma _ _ nst

/-- Witness for claim_C6_history_failure_swallowed at a concrete
invocation with a timed-out history fetch. -/
theorem claim_C6_history_failure_swallowed_witness :
    (Forecast.normalize_offense "homicide" = some "homicide"
      ∧ Forecast.normalize_state none = some none
      ∧ (1 : ℤ) ≤ 6 ∧ (6 : ℤ) ≤ 12
      ∧ Py.lowerStrip "summary" = "summary")
    ∧ Forecast.ucr_forecast "homicide" 6 true "summary" none (.ok {}) (.error .timeoutExc)
      = .ok (.summaryOut (Forecast.format_summary "homicide" 6
          ((({} : Forecast.PredictData).predictions).getD
            ((({} : Forecast.PredictData).forecast).getD []))
          ((({} : Forecast.PredictData).metadata).getD
            ((({} : Forecast.PredictData).model).getD
              ((({} : Forecast.PredictData).model_info).getD {}))) none none))
    ∧ "Recent History:" ∉ Forecast.format_summary_lines "homicide" 6
        ((({} : Forecast.PredictData).predictions).getD
          ((({} : Forecast.PredictData).forecast).getD []))
        ((({} : Forecast.PredictData).metadata).getD
          ((({} : Forecast.PredictData).model).getD
            ((({} : Forecast.PredictData).model_info).getD {}))) none none := by
  refine ⟨⟨by decide, by decide, by decide, by decide, by decide⟩, ?_, ?_⟩
  · exact (claim_C6_history_failure_swallowed "homicide" 6 "summary" none {} .timeoutExc
      "homicide" none (by decide) (by decide) (by decide) (by decide) (by decide)).1
  · exact (claim_C6_history_failure_swallowed "homicide" 6 "summary" none {} .timeoutExc
      "homicide" none (by decide) (by decide) (by decide) (by decide) (by decide)).2

